import Mathlib

/-!
Shallow embedding of the order lifecycle and inventory subsystem of the
e-commerce backend (server/routes/orders.js, server/models/Order.js,
server/routes/products.js payment section, server/models/Product.js).

Conventions of the embedding:
* JS numbers holding money are modelled as rationals; `Math.round` is
  `jsRound` (round half towards positive infinity).
* Mongoose documents become Lean structures; a Mongo collection is a
  `List`; `findById` / `findOne` become `List.find?`; an in-place
  `save` of a fetched document becomes an id-keyed map over the list.
* The HMAC-SHA256 primitive and `JSON.stringify` are taken as function
  parameters: the routes only compare their outputs for string equality.
* Statuses, payment methods and messages stay the literal strings the
  source uses.
-/

namespace Ecom

/-- JS `Math.round`: floor of x + 1/2 (round half up). -/
def jsRound (q : ℚ) : ℤ := ⌊q + 1/2⌋

/-- Product document (server/models/Product.js), the fields the order
routes read: `_id`, `name`, `price`, `stock`, `isActive`, `sku` and the
first image url. -/
structure Product where
  id : ℕ
  name : String
  price : ℚ
  stock : ℤ
  isActive : Bool
  sku : String
  image : String
  deriving DecidableEq, Repr

/-- One line item of an order request body (`items[*]`). -/
structure ReqItem where
  product : ℕ
  quantity : ℕ
  size : Option String
  deriving DecidableEq, Repr

/-- Captured order line item (orderSchema.items). -/
structure OrderItem where
  product : ℕ
  name : String
  price : ℚ
  quantity : ℕ
  size : Option String
  image : String
  sku : String
  deriving DecidableEq, Repr

/-- Coupon from the request body: `{code, discount, type}`. -/
structure Coupon where
  code : String
  discount : ℚ
  ctype : String
  deriving DecidableEq, Repr

/-- orderSchema.pricing. -/
structure Pricing where
  subtotal : ℚ
  tax : ℚ
  shippingCost : ℚ
  discount : ℚ
  total : ℚ
  deriving DecidableEq, Repr

/-- orderSchema.paymentInfo. -/
structure PaymentInfo where
  method : String
  transactionId : String := ""
  paymentId : String := ""
  orderId : String := ""
  signature : String := ""
  status : String := "pending"
  paidAt : Option ℕ := none
  failureReason : String := ""
  deriving DecidableEq, Repr

/-- orderSchema.cancellation. -/
structure Cancellation where
  reason : String
  cancelledAt : ℕ
  refundStatus : String
  refundAmount : ℚ
  deriving DecidableEq, Repr

/-- orderSchema.timeline entries: `{status, message, timestamp}`. -/
structure TimelineEntry where
  status : String
  message : String
  timestamp : ℕ
  deriving DecidableEq, Repr

/-- Order document (server/models/Order.js), restricted to the fields
the order and payment routes touch. -/
structure Order where
  id : ℕ
  orderNumber : String
  user : ℕ
  items : List OrderItem
  paymentInfo : PaymentInfo
  pricing : Pricing
  coupon : Option Coupon
  status : String
  cancellation : Option Cancellation
  timeline : List TimelineEntry
  deriving DecidableEq, Repr

/-- User cart entry (userSchema.cart). -/
structure CartItem where
  product : ℕ
  quantity : ℕ
  deriving DecidableEq, Repr

/-- User document restricted to what the order route touches. -/
structure User where
  id : ℕ
  cart : List CartItem
  deriving DecidableEq, Repr

/-- The persistent store: the three collections the core touches. -/
structure Db where
  products : List Product
  orders : List Order
  users : List User
  deriving DecidableEq, Repr

/-- A calendar date as rendered into order numbers: two-digit year,
month (1-12) and day of month. -/
structure DateYMD where
  yy : ℕ
  mm : ℕ
  dd : ℕ
  deriving DecidableEq, Repr

/-! ### Collection lookups and id-keyed writes -/

/-- `Product.find` restricted to one id: first match wins, as in Mongo. -/
def findProduct (ps : List Product) (pid : ℕ) : Option Product :=
  ps.find? (fun p => p.id == pid)

/-- Persisting a fetched product document: replace every stored document
with the same `_id`. -/
def updateProduct (ps : List Product) (p : Product) : List Product :=
  ps.map (fun q => if q.id == p.id then p else q)

/-- `Order.findById`. -/
def findOrder (os : List Order) (oid : ℕ) : Option Order :=
  os.find? (fun o => o.id == oid)

/-- `Order.findOne({'paymentInfo.orderId': roid})`. -/
def findOrderByProviderId (os : List Order) (roid : String) : Option Order :=
  os.find? (fun o => o.paymentInfo.orderId == roid)

/-- Persisting a fetched order document. -/
def updateOrder (os : List Order) (o : Order) : List Order :=
  os.map (fun q => if q.id == o.id then o else q)

/-- `User.findById`. -/
def findUser (us : List User) (uid : ℕ) : Option User :=
  us.find? (fun u => u.id == uid)

/-! ### Order number generation -/

/-- JS `String.prototype.padStart(n, '0')`. -/
def padZero (n : ℕ) (s : String) : String :=
  if n ≤ s.length then s
  else String.mk (List.replicate (n - s.length) '0') ++ s

/-- Digit character for base-36 rendering, lower case as in JS
`Number.prototype.toString(36)`. -/
def digit36 (n : ℕ) : Char :=
  if n < 10 then Char.ofNat (48 + n) else Char.ofNat (87 + n)

/-- Digits of `n` in base 36, most significant first; the first
argument is recursion fuel (`n` itself suffices). -/
def toBase36Core : ℕ → ℕ → List Char
  | 0, _ => []
  | fuel + 1, n =>
    if n = 0 then [] else toBase36Core fuel (n / 36) ++ [digit36 (n % 36)]

/-- JS `n.toString(36)` for a natural number. -/
def toBase36 (n : ℕ) : String :=
  if n = 0 then "0" else String.mk (toBase36Core n n)

/-- JS `String.prototype.toUpperCase` on ASCII data, as a character map. -/
def jsToUpper (s : String) : String :=
  String.mk (s.data.map Char.toUpper)

/-- routes/orders.js `generateOrderNumber`: the fallback generator
``ORD-${timestamp base36}-${random suffix}`` upper-cased.  The current
millisecond timestamp and the random suffix are taken as inputs. -/
def generateOrderNumber (ts : ℕ) (rand : String) : String :=
  jsToUpper ("ORD-" ++ toBase36 ts ++ "-" ++ rand)

/-- `SS` + YY + MM + DD, the per-day prefix of the schema's own
order-number scheme (Order.js pre-save hook). -/
def datePrefix (d : DateYMD) : String :=
  "SS" ++ padZero 2 (Nat.repr d.yy) ++ padZero 2 (Nat.repr d.mm)
       ++ padZero 2 (Nat.repr d.dd)

/-- Order numbers in the store matching the regex `^SSyymmdd`. -/
def todayNumbers (os : List Order) (d : DateYMD) : List String :=
  (os.map (fun o => o.orderNumber)).filter
    (fun s => s.take (datePrefix d).length == datePrefix d)

/-- Lexicographic maximum of two strings. -/
def strMax (a b : String) : String := if a < b then b else a

/-- `findOne({orderNumber: ^prefix}).sort({orderNumber: -1})`: the
lexicographically greatest matching order number, if any. -/
def lexMax : List String → Option String
  | [] => none
  | s :: rest => some (rest.foldl strMax s)

/-- JS `parseInt(orderNumber.slice(-4))` with 0 for unparsable input. -/
def lastFourNat (s : String) : ℕ :=
  ((s.drop (s.length - 4)).toNat?).getD 0

/-- The pre-save hook's own order number: per-day prefix plus a 4-digit
zero-padded sequence, one more than the day's greatest stored sequence
(1 when the day has no order yet). -/
def ssOrderNumber (os : List Order) (d : DateYMD) : String :=
  let seq : ℕ :=
    match lexMax (todayNumbers os d) with
    | none => 1
    | some last => lastFourNat last + 1
  datePrefix d ++ padZero 4 (Nat.repr seq)

/-- First half of the pre-save hook: assign the SS-scheme number when
none is set (`if (!this.orderNumber)`). -/
def assignNumber (os : List Order) (d : DateYMD) (o : Order) : Order :=
  if o.orderNumber == "" then { o with orderNumber := ssOrderNumber os d } else o

/-- Order.js `orderSchema.pre('save')`: assign the SS-scheme number when
none is set, then append a timeline entry exactly when the `status`
path is modified in this save. -/
def preSave (os : List Order) (d : DateYMD) (ts : ℕ) (statusModified : Bool)
    (o : Order) : Order :=
  if statusModified then
    { assignNumber os d o with timeline := (assignNumber os d o).timeline ++
        [{ status := (assignNumber os d o).status,
           message := "Order " ++ (assignNumber os d o).status, timestamp := ts }] }
  else assignNumber os d o

/-- A mongoose `save` of a loaded order: `isModified('status')` holds
exactly when the current status differs from the status the document
was loaded with. -/
def saveOrder (os : List Order) (d : DateYMD) (ts : ℕ) (loadedStatus : String)
    (o : Order) : Order :=
  preSave os d ts (o.status != loadedStatus) o

/-! ### Pricing (POST /api/orders, lines 113-127) -/

/-- Discount of an optional coupon as computed in the route:
applied only when a coupon with a truthy `code` is supplied. -/
def couponDiscount (subtotal : ℚ) (coupon : Option Coupon) : ℚ :=
  match coupon with
  | none => 0
  | some c =>
    if c.code != "" then
      if c.ctype == "percentage" then ((jsRound (subtotal * (c.discount / 100)) : ℤ) : ℚ)
      else if c.ctype == "fixed" then c.discount
      else 0
    else 0

/-- The pricing block the route stores on the order: 18% GST rounded,
flat 100 shipping waived strictly above 1000, coupon discount, and the
unclamped total. -/
def computePricing (subtotal : ℚ) (coupon : Option Coupon) : Pricing :=
  { subtotal := subtotal
    tax := ((jsRound (subtotal * (18/100)) : ℤ) : ℚ)
    shippingCost := if subtotal > 1000 then 0 else 100
    discount := couponDiscount subtotal coupon
    total := subtotal + ((jsRound (subtotal * (18/100)) : ℤ) : ℚ) +
      (if subtotal > 1000 then (0 : ℚ) else 100) - couponDiscount subtotal coupon }

/-! ### Order creation (POST /api/orders) -/

/-- Outcome of the create-order route, by response family. -/
inductive CreateOutcome where
  /-- 400 with the given message. -/
  | badRequest (msg : String)
  /-- 201 with the saved order. -/
  | created (o : Order)
  /-- 500: an exception escaped the handler (user document missing
  after the order was already saved). -/
  | serverError
  deriving DecidableEq, Repr

/-- The check-stock-and-decrement loop (orders.js lines 78-111).  It
walks the request items, looks each product up in the in-memory array
fetched by the batch query, rejects on the first item whose quantity
exceeds current stock, and otherwise captures the line item, decrements
the in-memory document and persists it immediately (`product.save()`).
On failure it returns the store as already mutated by the earlier
iterations; nothing is rolled back. -/
def stockLoop : List ReqItem → List Product → List Product →
    List OrderItem → ℚ →
    (List Product × String) ⊕ (List Product × List Product × List OrderItem × ℚ)
  | [], fetched, stored, acc, sub => Sum.inr (fetched, stored, acc, sub)
  | it :: rest, fetched, stored, acc, sub =>
    match findProduct fetched it.product with
    | none => Sum.inl (stored, "Product not found")
    | some p =>
      if p.stock < (it.quantity : ℤ) then
        Sum.inl (stored, "Insufficient stock for " ++ p.name)
      else
        let oi : OrderItem :=
          { product := p.id, name := p.name, price := p.price,
            quantity := it.quantity, size := it.size,
            image := p.image, sku := p.sku }
        let p' := { p with stock := p.stock - (it.quantity : ℤ) }
        stockLoop rest (updateProduct fetched p') (updateProduct stored p')
          (acc ++ [oi]) (sub + p.price * (it.quantity : ℚ))

/-- The batch query `Product.find({_id: {$in: productIds}, isActive: true})`. -/
def fetchedProducts (db : Db) (items : List ReqItem) : List Product :=
  db.products.filter
    (fun p => (items.map (fun it => it.product)).contains p.id && p.isActive)

/-- The order document as constructed by the route just before `save`. -/
def newOrderDoc (userId newId : ℕ) (ts : ℕ) (rand : String)
    (pinfo : PaymentInfo) (coupon : Option Coupon)
    (orderItems : List OrderItem) (subtotal : ℚ) : Order :=
  { id := newId
    orderNumber := generateOrderNumber ts rand
    user := userId
    items := orderItems
    paymentInfo := pinfo
    pricing := computePricing subtotal coupon
    coupon := coupon
    status := if pinfo.method == "cod" then "confirmed" else "pending"
    cancellation := none
    timeline := [] }

/-- `user.cart = []; await user.save()`. -/
def clearCart (us : List User) (u : User) : List User :=
  us.map (fun v => if v.id == u.id then { v with cart := ([] : List CartItem) } else v)

/-- Tail of the create route after the order document was saved: fetch
the user and clear the cart.  A missing user document raises after the
order is already persisted (500, order kept, no cart cleared). -/
def persistOrder (db : Db) (userId : ℕ) (stored : List Product)
    (saved : Order) : CreateOutcome × Db :=
  match findUser db.users userId with
  | none =>
    (CreateOutcome.serverError,
      { db with products := stored, orders := db.orders ++ [saved] })
  | some u =>
    (CreateOutcome.created saved,
      { db with
        products := stored
        orders := db.orders ++ [saved]
        users := clearCart db.users u })

/-- Continuation of the create route on the outcome of the stock loop:
a rejected batch keeps whatever partial decrements the loop already
persisted; an accepted batch builds, prices and saves the order. -/
def afterLoop (db : Db) (userId newId : ℕ) (ts : ℕ) (rand : String)
    (d : DateYMD) (pinfo : PaymentInfo) (coupon : Option Coupon) :
    (List Product × String) ⊕ (List Product × List Product × List OrderItem × ℚ) →
    CreateOutcome × Db
  | Sum.inl (stored, msg) =>
    (CreateOutcome.badRequest msg, { db with products := stored })
  | Sum.inr (_, stored, orderItems, subtotal) =>
    persistOrder db userId stored
      (preSave db.orders d ts true
        (newOrderDoc userId newId ts rand pinfo coupon orderItems subtotal))

/-- POST /api/orders.  Arguments beyond the request body: `ts`/`rand`
feed the fallback number generator, `d` is today's date for the
pre-save hook, `newId` the fresh Mongo id of the order document. -/
def createOrder (db : Db) (userId : ℕ) (items : List ReqItem)
    (pinfo : PaymentInfo) (coupon : Option Coupon)
    (ts : ℕ) (rand : String) (d : DateYMD) (newId : ℕ) :
    CreateOutcome × Db :=
  if items.isEmpty || items.any (fun it => it.quantity == 0) then
    (CreateOutcome.badRequest "Validation failed", db)
  else if (fetchedProducts db items).length != (items.map (fun it => it.product)).length then
    (CreateOutcome.badRequest "Some products are not available", db)
  else
    afterLoop db userId newId ts rand d pinfo coupon
      (stockLoop items (fetchedProducts db items) db.products [] 0)

/-! ### Cancellation (PUT /api/orders/:id/cancel) -/

/-- Outcome of the cancel route, by response family. -/
inductive CancelOutcome where
  /-- 404. -/
  | notFound
  /-- 403: requester does not own the order. -/
  | forbidden
  /-- 400 "Order cannot be cancelled at this stage". -/
  | cannotCancel
  /-- 200 with the cancelled order. -/
  | cancelled (o : Order)
  deriving DecidableEq, Repr

/-- The stock-restoration loop (orders.js lines 356-361): for every
line item, `findByIdAndUpdate(product, {$inc: {stock: quantity}})`. -/
def restoreStock (ps : List Product) : List OrderItem → List Product
  | [] => ps
  | it :: rest =>
    restoreStock
      (ps.map (fun p => if p.id == it.product then { p with stock := p.stock + (it.quantity : ℤ) } else p))
      rest

/-- The order as mutated by the cancel route before `save`. -/
def cancelledDoc (o : Order) (reason : Option String) (now : ℕ) : Order :=
  { o with
    status := "cancelled"
    cancellation := some
      { reason := reason.getD "Cancelled by customer"
        cancelledAt := now
        refundStatus := if o.paymentInfo.status == "completed" then "pending" else "processed"
        refundAmount := if o.paymentInfo.status == "completed" then o.pricing.total else 0 } }

/-- Body of the cancel route once the order document was found. -/
def cancelFound (db : Db) (uid : ℕ) (reason : Option String) (now : ℕ)
    (d : DateYMD) (o : Order) : CancelOutcome × Db :=
  if o.user != uid then (CancelOutcome.forbidden, db)
  else if !(["pending", "confirmed", "processing"].contains o.status) then
    (CancelOutcome.cannotCancel, db)
  else
    (CancelOutcome.cancelled (saveOrder db.orders d now o.status (cancelledDoc o reason now)),
      { db with
        orders := updateOrder db.orders (saveOrder db.orders d now o.status (cancelledDoc o reason now))
        products := restoreStock db.products
          (saveOrder db.orders d now o.status (cancelledDoc o reason now)).items })

/-- PUT /api/orders/:id/cancel. -/
def cancelOrder (db : Db) (oid : ℕ) (uid : ℕ) (reason : Option String)
    (now : ℕ) (d : DateYMD) : CancelOutcome × Db :=
  match findOrder db.orders oid with
  | none => (CancelOutcome.notFound, db)
  | some o => cancelFound db uid reason now d o

/-! ### Payment verification (POST /api/payment/razorpay/verify) -/

/-- Outcome of the verify route, by response family. -/
inductive VerifyOutcome where
  /-- 400 "Payment verification failed". -/
  | sigMismatch
  /-- 404. -/
  | notFound
  /-- 403. -/
  | forbidden
  /-- 200 with the updated order. -/
  | verified (o : Order)
  deriving DecidableEq, Repr

/-- The order as mutated by the verify route on signature success:
provider ids and signature recorded, payment completed, order
confirmed. -/
def verifiedDoc (o : Order) (roid rpid rsig : String) (now : ℕ) : Order :=
  { o with
    paymentInfo :=
      { o.paymentInfo with
        paymentId := rpid
        orderId := roid
        signature := rsig
        status := "completed"
        paidAt := some now }
    status := "confirmed" }

/-- POST /api/payment/razorpay/verify.  `hmac key msg` stands for the
hex HMAC-SHA256 digest; the route recomputes it over
`razorpay_order_id + "|" + razorpay_payment_id` with the key secret and
compares for string equality before touching any state. -/
def verifyPayment (hmac : String → String → String) (keySecret : String)
    (db : Db) (uid : ℕ) (roid rpid rsig : String) (oid : ℕ)
    (now : ℕ) (d : DateYMD) : VerifyOutcome × Db :=
  if hmac keySecret (roid ++ "|" ++ rpid) != rsig then (VerifyOutcome.sigMismatch, db)
  else
    match findOrder db.orders oid with
    | none => (VerifyOutcome.notFound, db)
    | some o =>
      if o.user != uid then (VerifyOutcome.forbidden, db)
      else
        (VerifyOutcome.verified (saveOrder db.orders d now o.status (verifiedDoc o roid rpid rsig now)),
          { db with orders := updateOrder db.orders (saveOrder db.orders d now o.status (verifiedDoc o roid rpid rsig now)) })

/-! ### Webhook (POST /api/payment/razorpay/webhook) -/

/-- Parsed webhook payload: `event` and `payload.payment.entity`. -/
structure WebhookBody where
  event : String
  paymentId : String
  orderId : String
  errorDescription : String
  deriving DecidableEq, Repr

/-- Outcome of the webhook route, by response family. -/
inductive WebhookOutcome where
  /-- 400 "Webhook signature verification failed". -/
  | sigMismatch
  /-- 200 `{success: true}`. -/
  | ok
  deriving DecidableEq, Repr

/-- The order as mutated by the `payment.failed` webhook branch: the
payment status is overwritten with `failed` with no guard on the
current value. -/
def failedDoc (o : Order) (errorDescription : String) : Order :=
  { o with paymentInfo :=
      { o.paymentInfo with status := "failed", failureReason := errorDescription } }

/-- The event dispatch of the webhook handler (after the optional
signature check): `payment.failed` marks the matching order's payment
failed unconditionally; `payment.captured` and unknown events only
log. -/
def webhookDispatch (db : Db) (body : WebhookBody) (now : ℕ) (d : DateYMD) :
    WebhookOutcome × Db :=
  if body.event == "payment.failed" then
    match findOrderByProviderId db.orders body.orderId with
    | none => (WebhookOutcome.ok, db)
    | some o =>
      (WebhookOutcome.ok,
        { db with orders := updateOrder db.orders (saveOrder db.orders d now o.status (failedDoc o body.errorDescription)) })
  else (WebhookOutcome.ok, db)

/-- POST /api/payment/razorpay/webhook.  The signature over
`JSON.stringify(req.body)` is verified only when a webhook secret is
configured; with no secret the payload is processed unchecked.
`stringify` abstracts `JSON.stringify`. -/
def handleWebhook (hmac : String → String → String)
    (stringify : WebhookBody → String) (secret : Option String)
    (db : Db) (sigHeader : String) (body : WebhookBody)
    (now : ℕ) (d : DateYMD) : WebhookOutcome × Db :=
  match secret with
  | some s =>
    if hmac s (stringify body) != sigHeader then (WebhookOutcome.sigMismatch, db)
    else webhookDispatch db body now d
  | none => webhookDispatch db body now d

/-! ### Measures used by the specifications -/

/-- Sum of price times quantity over captured line items. -/
def sumItems (l : List OrderItem) : ℚ :=
  (l.map (fun i => i.price * (i.quantity : ℚ))).sum

/-- Total quantity the line items of an order request for one product. -/
def qtySum (its : List OrderItem) (pid : ℕ) : ℤ :=
  ((its.filter (fun it => it.product == pid)).map (fun it => (it.quantity : ℤ))).sum

/-! ### Concrete fixtures used by witnesses and counterexamples -/

/-- An active product with price 500 and stock 5. -/
def exProduct1 : Product :=
  { id := 1, name := "Saree A", price := 500, stock := 5, isActive := true,
    sku := "SKU1", image := "img1" }

/-- An active product with stock 0. -/
def exProduct2 : Product :=
  { id := 2, name := "Saree B", price := 200, stock := 0, isActive := true,
    sku := "SKU2", image := "img2" }

/-- A user with one cart entry. -/
def exUser : User := { id := 7, cart := [{ product := 1, quantity := 1 }] }

/-- A store with the two products, no orders and the one user. -/
def exDb : Db := { products := [exProduct1, exProduct2], orders := [], users := [exUser] }

/-- Payment info of the request body: online method, schema defaults. -/
def exPinfo : PaymentInfo := { method := "razorpay" }

/-- A concrete calendar date. -/
def exDate : DateYMD := { yy := 25, mm := 10, dd := 12 }

/-- The one-item request `[{product: 1, quantity: 1}]`. -/
def exReq1 : List ReqItem := [{ product := 1, quantity := 1, size := none }]

/-- The order produced by `createOrder` on `exDb` for `exReq1` at
timestamp 99 with random suffix "abcde". -/
def exOrder : Order :=
  { id := 50, orderNumber := "ORD-2R-ABCDE", user := 7,
    items := [{ product := 1, name := "Saree A", price := 500, quantity := 1,
                size := none, image := "img1", sku := "SKU1" }],
    paymentInfo := exPinfo,
    pricing := { subtotal := 500, tax := 90, shippingCost := 100, discount := 0, total := 690 },
    coupon := none, status := "pending", cancellation := none,
    timeline := [{ status := "pending", message := "Order pending", timestamp := 99 }] }

/-- The store after that successful creation: stock decremented, order
appended, cart cleared. -/
def exDb2 : Db :=
  { products := [{ exProduct1 with stock := 4 }, exProduct2],
    orders := [exOrder],
    users := [{ id := 7, cart := [] }] }

/-- The two-item request `[{product: 1, quantity: 2}, {product: 2,
quantity: 1}]`: the first line is coverable, the second is not. -/
def exReq2 : List ReqItem :=
  [{ product := 1, quantity := 2, size := none },
   { product := 2, quantity := 1, size := none }]

/-- A confirmed order with a completed razorpay payment recorded under
provider order id `rzp_1`. -/
def exOrderPaid : Order :=
  { id := 11, orderNumber := "SS2510120001", user := 7,
    items := [{ product := 1, name := "Saree A", price := 500, quantity := 2,
                size := none, image := "img1", sku := "SKU1" }],
    paymentInfo := { method := "razorpay", orderId := "rzp_1", status := "completed" },
    pricing := { subtotal := 1000, tax := 180, shippingCost := 100, discount := 0, total := 1280 },
    coupon := none, status := "confirmed", cancellation := none, timeline := [] }

/-- A store holding the paid order. -/
def exDbPaid : Db :=
  { products := [exProduct1, exProduct2], orders := [exOrderPaid], users := [exUser] }

/-- The paid order after it was shipped. -/
def exOrderShipped : Order := { exOrderPaid with id := 12, status := "shipped" }

/-- A store holding the shipped order. -/
def exDbShipped : Db :=
  { products := [exProduct1, exProduct2], orders := [exOrderShipped], users := [exUser] }

/-- An order saved without an order number. -/
def exOrderBlank : Order := { exOrderPaid with id := 13, orderNumber := "" }

/-- A `payment.failed` webhook payload for provider order `rzp_1`. -/
def exFailBody : WebhookBody :=
  { event := "payment.failed", paymentId := "pay_9", orderId := "rzp_1",
    errorDescription := "card declined" }

/-- A stand-in digest function for witnesses. -/
def exHmac : String → String → String := fun _ _ => "deadbeef"

/-- A stand-in serialization function for witnesses. -/
def exStringify : WebhookBody → String := fun _ => "{}"

/-- End-to-end evaluation of the fixture run: the one-item request on
`exDb` is accepted and produces exactly `exOrder` and `exDb2`. -/
theorem exCreate_eq :
    createOrder exDb 7 exReq1 exPinfo none 99 "abcde" exDate 50 =
      (CreateOutcome.created exOrder, exDb2) := by
  set_option maxRecDepth 10000 in
  simp only [createOrder, fetchedProducts, stockLoop, afterLoop, persistOrder, findProduct,
    findUser, updateProduct, clearCart, preSave, assignNumber, newOrderDoc, computePricing,
    couponDiscount, generateOrderNumber, jsToUpper, toBase36, toBase36Core, digit36,
    exDb, exProduct1, exProduct2, exUser, exPinfo, exReq1, exOrder, exDb2, jsRound]
  norm_num
  decide

/-! ### Helper lemmas -/

theorem find?_map_key {α : Type} (f : α → α) (p : α → Bool)
    (hp : ∀ a, p (f a) = p a) :
    ∀ l : List α, (l.map f).find? p = (l.find? p).map f := by
  intro l
  induction l with
  | nil => rfl
  | cons a t ih =>
    by_cases h : p a = true
    · rw [List.map_cons, List.find?_cons_of_pos _ (by rw [hp]; exact h),
        List.find?_cons_of_pos _ h]
      rfl
    · rw [List.map_cons, List.find?_cons_of_neg _ (by rw [hp]; simpa using h),
        List.find?_cons_of_neg _ (by simpa using h), ih]

@[simp] theorem assignNumber_status (os : List Order) (d : DateYMD) (o : Order) :
    (assignNumber os d o).status = o.status := by
  unfold assignNumber; split <;> rfl

@[simp] theorem assignNumber_timeline (os : List Order) (d : DateYMD) (o : Order) :
    (assignNumber os d o).timeline = o.timeline := by
  unfold assignNumber; split <;> rfl

@[simp] theorem assignNumber_items (os : List Order) (d : DateYMD) (o : Order) :
    (assignNumber os d o).items = o.items := by
  unfold assignNumber; split <;> rfl

@[simp] theorem assignNumber_pricing (os : List Order) (d : DateYMD) (o : Order) :
    (assignNumber os d o).pricing = o.pricing := by
  unfold assignNumber; split <;> rfl

@[simp] theorem assignNumber_paymentInfo (os : List Order) (d : DateYMD) (o : Order) :
    (assignNumber os d o).paymentInfo = o.paymentInfo := by
  unfold assignNumber; split <;> rfl

@[simp] theorem assignNumber_cancellation (os : List Order) (d : DateYMD) (o : Order) :
    (assignNumber os d o).cancellation = o.cancellation := by
  unfold assignNumber; split <;> rfl

@[simp] theorem assignNumber_id (os : List Order) (d : DateYMD) (o : Order) :
    (assignNumber os d o).id = o.id := by
  unfold assignNumber; split <;> rfl

@[simp] theorem assignNumber_user (os : List Order) (d : DateYMD) (o : Order) :
    (assignNumber os d o).user = o.user := by
  unfold assignNumber; split <;> rfl

@[simp] theorem assignNumber_coupon (os : List Order) (d : DateYMD) (o : Order) :
    (assignNumber os d o).coupon = o.coupon := by
  unfold assignNumber; split <;> rfl

theorem assignNumber_of_ne (os : List Order) (d : DateYMD) (o : Order)
    (h : o.orderNumber ≠ "") : assignNumber os d o = o := by
  unfold assignNumber
  simp [h]

@[simp] theorem preSave_status (os : List Order) (d : DateYMD) (ts : ℕ)
    (sm : Bool) (o : Order) : (preSave os d ts sm o).status = o.status := by
  unfold preSave; split <;> simp

@[simp] theorem preSave_items (os : List Order) (d : DateYMD) (ts : ℕ)
    (sm : Bool) (o : Order) : (preSave os d ts sm o).items = o.items := by
  unfold preSave; split <;> simp

@[simp] theorem preSave_pricing (os : List Order) (d : DateYMD) (ts : ℕ)
    (sm : Bool) (o : Order) : (preSave os d ts sm o).pricing = o.pricing := by
  unfold preSave; split <;> simp

@[simp] theorem preSave_paymentInfo (os : List Order) (d : DateYMD) (ts : ℕ)
    (sm : Bool) (o : Order) : (preSave os d ts sm o).paymentInfo = o.paymentInfo := by
  unfold preSave; split <;> simp

@[simp] theorem preSave_cancellation (os : List Order) (d : DateYMD) (ts : ℕ)
    (sm : Bool) (o : Order) : (preSave os d ts sm o).cancellation = o.cancellation := by
  unfold preSave; split <;> simp

@[simp] theorem preSave_id (os : List Order) (d : DateYMD) (ts : ℕ)
    (sm : Bool) (o : Order) : (preSave os d ts sm o).id = o.id := by
  unfold preSave; split <;> simp

@[simp] theorem preSave_user (os : List Order) (d : DateYMD) (ts : ℕ)
    (sm : Bool) (o : Order) : (preSave os d ts sm o).user = o.user := by
  unfold preSave; split <;> simp

@[simp] theorem preSave_coupon (os : List Order) (d : DateYMD) (ts : ℕ)
    (sm : Bool) (o : Order) : (preSave os d ts sm o).coupon = o.coupon := by
  unfold preSave; split <;> simp

theorem preSave_timeline (os : List Order) (d : DateYMD) (ts : ℕ)
    (sm : Bool) (o : Order) :
    (preSave os d ts sm o).timeline =
      if sm then o.timeline ++
        [{ status := o.status, message := "Order " ++ o.status, timestamp := ts }]
      else o.timeline := by
  unfold preSave; split <;> simp_all

theorem findProduct_updateProduct (ps : List Product) (p : Product) (pid : ℕ) :
    findProduct (updateProduct ps p) pid =
      (findProduct ps pid).map (fun q => if q.id == p.id then p else q) := by
  unfold findProduct updateProduct
  apply find?_map_key
  intro a
  by_cases h : (a.id == p.id) = true
  · have ha : a.id = p.id := by simpa using h
    simp [h, ha]
  · simp [h]

theorem findProduct_id {ps : List Product} {pid : ℕ} {p : Product}
    (h : findProduct ps pid = some p) : p.id = pid := by
  have := List.find?_some h
  simpa using this

theorem findUser_id {us : List User} {uid : ℕ} {u : User}
    (h : findUser us uid = some u) : u.id = uid := by
  have := List.find?_some h
  simpa using this

theorem findOrder_id {os : List Order} {oid : ℕ} {o : Order}
    (h : findOrder os oid = some o) : o.id = oid := by
  have := List.find?_some h
  simpa using this

theorem findProduct_restoreStock (its : List OrderItem) :
    ∀ ps : List Product, ∀ pid : ℕ,
    findProduct (restoreStock ps its) pid =
      (findProduct ps pid).map
        (fun p => { p with stock := p.stock + qtySum its pid }) := by
  induction its with
  | nil =>
    intro ps pid
    cases h : findProduct ps pid with
    | none => simp [restoreStock, h]
    | some p => simp [restoreStock, qtySum, h]
  | cons it rest ih =>
    intro ps pid
    unfold restoreStock
    rw [ih]
    have hmap : findProduct
        (ps.map (fun p => if p.id == it.product
          then { p with stock := p.stock + (it.quantity : ℤ) } else p)) pid =
        (findProduct ps pid).map
          (fun p => if p.id == it.product
            then { p with stock := p.stock + (it.quantity : ℤ) } else p) := by
      unfold findProduct
      apply find?_map_key
      intro a
      by_cases h : a.id == it.product <;> simp [h]
    rw [hmap]
    cases h : findProduct ps pid with
    | none => simp
    | some p =>
      have hid : p.id = pid := findProduct_id h
      simp only [Option.map_some']
      by_cases hpid : pid = it.product
      · have hq : qtySum (it :: rest) pid = (it.quantity : ℤ) + qtySum rest pid := by
          unfold qtySum
          simp [List.filter_cons, hpid.symm]
        rw [hq]
        simp [hid, hpid, add_assoc]
      · have hne : ¬ it.product = pid := fun hh => hpid hh.symm
        have hq : qtySum (it :: rest) pid = qtySum rest pid := by
          unfold qtySum
          simp [List.filter_cons, hne]
        rw [hq]
        have : (p.id == it.product) = false := by
          simp [hid, hpid]
        simp [this]

theorem createOrder_created_inv {db : Db} {uid : ℕ} {items : List ReqItem}
    {pinfo : PaymentInfo} {coupon : Option Coupon} {ts : ℕ} {rand : String}
    {d : DateYMD} {nid : ℕ} {o : Order} {db' : Db}
    (h : createOrder db uid items pinfo coupon ts rand d nid =
      (CreateOutcome.created o, db')) :
    ∃ f s ois sub,
      stockLoop items (fetchedProducts db items) db.products [] 0 =
        Sum.inr (f, s, ois, sub) ∧
      o = preSave db.orders d ts true (newOrderDoc uid nid ts rand pinfo coupon ois sub) ∧
      db'.orders = db.orders ++ [o] ∧ db'.products = s ∧
      ∃ u, findUser db.users uid = some u ∧ db'.users = clearCart db.users u := by
  unfold createOrder at h
  by_cases h1 : (items.isEmpty || items.any fun it => it.quantity == 0) = true
  · rw [if_pos h1] at h
    exact absurd h (by simp)
  · rw [if_neg h1] at h
    by_cases h2 : ((fetchedProducts db items).length !=
        (items.map (fun it => it.product)).length) = true
    · rw [if_pos h2] at h
      exact absurd h (by simp)
    · rw [if_neg h2] at h
      cases hloop : stockLoop items (fetchedProducts db items) db.products [] 0 with
      | inl pr =>
        obtain ⟨stored, msg⟩ := pr
        rw [hloop] at h
        unfold afterLoop at h
        exact absurd h (by simp)
      | inr q =>
        obtain ⟨f₀, stored, ois, sub⟩ := q
        rw [hloop] at h
        unfold afterLoop at h
        unfold persistOrder at h
        cases hu : findUser db.users uid with
        | none =>
          rw [hu] at h
          exact absurd h (by simp)
        | some u =>
          rw [hu] at h
          simp only [Prod.mk.injEq, CreateOutcome.created.injEq] at h
          obtain ⟨ho, hdb⟩ := h
          refine ⟨f₀, stored, ois, sub, rfl, ho.symm, ?_, ?_, u, rfl, ?_⟩
          · rw [← hdb, ho]
          · rw [← hdb]
          · rw [← hdb]

theorem stockLoop_inr_spec (items : List ReqItem) :
    ∀ f s : List Product, ∀ acc : List OrderItem, ∀ sub : ℚ,
    ∀ f' s' : List Product, ∀ ois : List OrderItem, ∀ sub' : ℚ,
    stockLoop items f s acc sub = Sum.inr (f', s', ois, sub') →
    ∃ new, ois = acc ++ new ∧ sub' = sub + sumItems new := by
  induction items with
  | nil =>
    intro f s acc sub f' s' ois sub' h
    unfold stockLoop at h
    obtain ⟨rfl, rfl, rfl, rfl⟩ : f = f' ∧ s = s' ∧ acc = ois ∧ sub = sub' := by
      simpa using h
    exact ⟨[], by simp [sumItems]⟩
  | cons it rest ih =>
    intro f s acc sub f' s' ois sub' h
    unfold stockLoop at h
    split at h
    · exact absurd h (by simp)
    · split at h
      · exact absurd h (by simp)
      · simp only [] at h
        obtain ⟨new₁, hois, hsub⟩ := ih _ _ _ _ _ _ _ _ h
        rename_i p _ _
        refine ⟨(⟨p.id, p.name, p.price, it.quantity, it.size, p.image, p.sku⟩ : OrderItem) :: new₁, ?_, ?_⟩
        · rw [hois]; simp
        · rw [hsub]
          unfold sumItems
          simp only [List.map_cons, List.sum_cons]
          ring

theorem stockLoop_cons_found {it : ReqItem} {rest : List ReqItem}
    {f s : List Product} {acc : List OrderItem} {sub : ℚ} {p : Product}
    (hp : findProduct f it.product = some p) :
    stockLoop (it :: rest) f s acc sub =
      if p.stock < (it.quantity : ℤ) then
        Sum.inl (s, "Insufficient stock for " ++ p.name)
      else
        stockLoop rest
          (updateProduct f { p with stock := p.stock - (it.quantity : ℤ) })
          (updateProduct s { p with stock := p.stock - (it.quantity : ℤ) })
          (acc ++ [⟨p.id, p.name, p.price, it.quantity, it.size, p.image, p.sku⟩])
          (sub + p.price * (it.quantity : ℚ)) := by
  simp only [stockLoop, hp]

theorem afterLoop_inl (db : Db) (userId newId : ℕ) (ts : ℕ) (rand : String)
    (d : DateYMD) (pinfo : PaymentInfo) (coupon : Option Coupon)
    (stored : List Product) (msg : String) :
    afterLoop db userId newId ts rand d pinfo coupon (Sum.inl (stored, msg)) =
      (CreateOutcome.badRequest msg, { db with products := stored }) := rfl

/-! ### C1 -/

/-- C1 counterexample: on a two-item batch whose first line is covered
by stock (5 ≥ 2) and whose second is not (0 < 1), `createOrder` is
rejected, yet the first product's stock has dropped from 5 to 3: the
rejected call is not all-or-nothing. -/
theorem c1_counterexample :
    (createOrder exDb 7 exReq2 exPinfo none 99 "abcde" exDate 50).1 =
      CreateOutcome.badRequest "Insufficient stock for Saree B" ∧
    findProduct exDb.products 1 = some exProduct1 ∧
    exProduct1.stock = 5 ∧
    findProduct (createOrder exDb 7 exReq2 exPinfo none 99 "abcde" exDate 50).2.products 1 =
      some { exProduct1 with stock := 3 } := by
  refine ⟨?_, by decide, by decide, ?_⟩ <;>
    (simp only [createOrder, fetchedProducts, stockLoop, afterLoop, findProduct, updateProduct,
      exDb, exProduct1, exProduct2, exUser, exPinfo, exReq2]
     norm_num
     try decide)

/-- C1 amended: a batch with a missing or inactive product is rejected
with no stock mutation (the existence check precedes the loop), but an
insufficient-stock line only stops the loop: lines processed earlier
keep their already-persisted decrements.  In a two-item batch whose
first line is covered and whose second is not, the call is rejected and
the first product's stock is decremented by the first line's quantity. -/
theorem c1_insufficient_stock_not_rolled_back :
    (∀ (db : Db) (uid : ℕ) (items : List ReqItem) (pinfo : PaymentInfo)
        (coupon : Option Coupon) (ts : ℕ) (rand : String) (d : DateYMD) (nid : ℕ),
      items ≠ [] →
      (∀ it ∈ items, it.quantity ≠ 0) →
      (fetchedProducts db items).length ≠ items.length →
      createOrder db uid items pinfo coupon ts rand d nid =
        (CreateOutcome.badRequest "Some products are not available", db)) ∧
    (∀ (db : Db) (uid : ℕ) (i1 i2 : ReqItem) (pinfo : PaymentInfo)
        (coupon : Option Coupon) (ts : ℕ) (rand : String) (d : DateYMD) (nid : ℕ)
        (p1 p2 : Product),
      i1.quantity ≠ 0 → i2.quantity ≠ 0 →
      i1.product ≠ i2.product →
      (fetchedProducts db [i1, i2]).length = 2 →
      findProduct (fetchedProducts db [i1, i2]) i1.product = some p1 →
      ¬ p1.stock < (i1.quantity : ℤ) →
      findProduct (fetchedProducts db [i1, i2]) i2.product = some p2 →
      p2.stock < (i2.quantity : ℤ) →
      (createOrder db uid [i1, i2] pinfo coupon ts rand d nid).1 =
        CreateOutcome.badRequest ("Insufficient stock for " ++ p2.name) ∧
      (createOrder db uid [i1, i2] pinfo coupon ts rand d nid).2.products =
        updateProduct db.products { p1 with stock := p1.stock - (i1.quantity : ℤ) } ∧
      (∀ q1, findProduct db.products i1.product = some q1 →
        findProduct (createOrder db uid [i1, i2] pinfo coupon ts rand d nid).2.products i1.product =
          some { p1 with stock := p1.stock - (i1.quantity : ℤ) })) := by
  constructor
  · intro db uid items pinfo coupon ts rand d nid hne hq hlen
    have h1 : items.isEmpty = false := by
      cases items with
      | nil => exact absurd rfl hne
      | cons a t => rfl
    have h2 : (items.any fun it => it.quantity == 0) = false := by
      rw [List.any_eq_false]
      intro it hit
      simpa using hq it hit
    have h3 : ((fetchedProducts db items).length !=
        (items.map (fun it => it.product)).length) = true := by
      rw [List.length_map]
      exact bne_iff_ne.mpr hlen
    unfold createOrder
    rw [if_neg (by simp [h1, h2]), if_pos h3]
  · intro db uid i1 i2 pinfo coupon ts rand d nid p1 p2 hq1 hq2 hne hlen hp1 hs1 hp2 hs2
    have hid1 : p1.id = i1.product := findProduct_id hp1
    have hid2 : p2.id = i2.product := findProduct_id hp2
    have hval : ([i1, i2].isEmpty || [i1, i2].any fun it => it.quantity == 0) = false := by
      simp [hq1, hq2]
    have hlen2 : ((fetchedProducts db [i1, i2]).length !=
        ([i1, i2].map (fun it => it.product)).length) = false := by
      simp [hlen]
    have hp2' : findProduct
        (updateProduct (fetchedProducts db [i1, i2])
          { p1 with stock := p1.stock - (i1.quantity : ℤ) }) i2.product = some p2 := by
      rw [findProduct_updateProduct, hp2]
      have hne2 : (p2.id == ({ p1 with stock := p1.stock - (i1.quantity : ℤ) } : Product).id) = false := by
        have h5 : p2.id ≠ p1.id := by
          rw [hid2, hid1]
          exact fun hh => hne hh.symm
        exact beq_eq_false_iff_ne.mpr h5
      rw [Option.map_some', if_neg (by simp [hne2])]
    have hloop : stockLoop [i1, i2] (fetchedProducts db [i1, i2]) db.products [] 0 =
        Sum.inl (updateProduct db.products { p1 with stock := p1.stock - (i1.quantity : ℤ) },
          "Insufficient stock for " ++ p2.name) := by
      rw [stockLoop_cons_found hp1, if_neg hs1, stockLoop_cons_found hp2', if_pos hs2]
    have hco : createOrder db uid [i1, i2] pinfo coupon ts rand d nid =
        (CreateOutcome.badRequest ("Insufficient stock for " ++ p2.name),
          { db with products := updateProduct db.products { p1 with stock := p1.stock - (i1.quantity : ℤ) } }) := by
      unfold createOrder
      rw [if_neg (by simp [hq1, hq2]), if_neg (by simp [hlen]), hloop, afterLoop_inl]
    refine ⟨by rw [hco], by rw [hco], ?_⟩
    intro q1 hq1f
    rw [hco]
    show findProduct (updateProduct db.products { p1 with stock := p1.stock - (i1.quantity : ℤ) }) i1.product =
      some { p1 with stock := p1.stock - (i1.quantity : ℤ) }
    rw [findProduct_updateProduct, hq1f]
    have hq1id : (q1.id == ({ p1 with stock := p1.stock - (i1.quantity : ℤ) } : Product).id) = true := by
      have h6 : q1.id = p1.id := by rw [findProduct_id hq1f, hid1]
      exact beq_iff_eq.mpr h6
    rw [Option.map_some', if_pos hq1id]

/-- Witness for C1's amended claim: the fixture two-item batch is
rejected with the insufficient-stock message and the store ends with
the first product decremented by 2. -/
theorem c1_insufficient_stock_not_rolled_back_witness :
    (createOrder exDb 7 exReq2 exPinfo none 99 "abcde" exDate 50).1 =
      CreateOutcome.badRequest ("Insufficient stock for " ++ exProduct2.name) ∧
    (createOrder exDb 7 exReq2 exPinfo none 99 "abcde" exDate 50).2.products =
      updateProduct exDb.products { exProduct1 with stock := exProduct1.stock - (2 : ℤ) } :=
  ⟨(c1_insufficient_stock_not_rolled_back.2 exDb 7
      { product := 1, quantity := 2, size := none }
      { product := 2, quantity := 1, size := none }
      exPinfo none 99 "abcde" exDate 50 exProduct1 exProduct2
      (by decide) (by decide) (by decide) (by decide) (by decide) (by decide)
      (by decide) (by decide)).1,
   (c1_insufficient_stock_not_rolled_back.2 exDb 7
      { product := 1, quantity := 2, size := none }
      { product := 2, quantity := 1, size := none }
      exPinfo none 99 "abcde" exDate 50 exProduct1 exProduct2
      (by decide) (by decide) (by decide) (by decide) (by decide) (by decide)
      (by decide) (by decide)).2.1⟩

/-! ### C2 -/

/-- C2: every successful `createOrder` records the pricing breakdown
subtotal = Σ unitPrice·quantity over the captured items, tax =
round(subtotal·18%), shippingCost = 0 iff subtotal > 1000 else 100,
discount per the optional coupon (percentage rounded, fixed verbatim,
0 without coupon), and total = subtotal + tax + shippingCost − discount
with no clamping. -/
theorem c2_pricing_breakdown
    (db : Db) (uid : ℕ) (items : List ReqItem) (pinfo : PaymentInfo)
    (coupon : Option Coupon) (ts : ℕ) (rand : String) (d : DateYMD) (nid : ℕ)
    (o : Order) (db' : Db)
    (h : createOrder db uid items pinfo coupon ts rand d nid =
      (CreateOutcome.created o, db')) :
    o.pricing.subtotal = sumItems o.items ∧
    o.pricing.tax = ((jsRound (o.pricing.subtotal * (18/100)) : ℤ) : ℚ) ∧
    o.pricing.shippingCost = (if o.pricing.subtotal > 1000 then (0 : ℚ) else 100) ∧
    (coupon = none → o.pricing.discount = 0) ∧
    (∀ c, coupon = some c → c.code ≠ "" → c.ctype = "percentage" →
      o.pricing.discount = ((jsRound (o.pricing.subtotal * c.discount / 100) : ℤ) : ℚ)) ∧
    (∀ c, coupon = some c → c.code ≠ "" → c.ctype = "fixed" →
      o.pricing.discount = c.discount) ∧
    o.pricing.total =
      o.pricing.subtotal + o.pricing.tax + o.pricing.shippingCost - o.pricing.discount := by
  obtain ⟨f, s, ois, sub, hloop, ho, -, -, -⟩ := createOrder_created_inv h
  have hitems : o.items = ois := by
    rw [ho, preSave_items]; rfl
  have hpr : o.pricing = computePricing sub coupon := by
    rw [ho, preSave_pricing]; rfl
  obtain ⟨new, hnew, hsub⟩ := stockLoop_inr_spec _ _ _ _ _ _ _ _ _ hloop
  have hsub' : sub = sumItems ois := by
    rw [hnew]
    simpa using hsub
  have hsubeq : o.pricing.subtotal = sub := by rw [hpr]; rfl
  refine ⟨?_, ?_, ?_, ?_, ?_, ?_, ?_⟩
  · rw [hsubeq, hitems, hsub']
  · rw [hpr]; rfl
  · rw [hpr]; rfl
  · intro hc; rw [hpr, hc]; rfl
  · intro c hc hcode hty
    rw [hpr]
    show couponDiscount sub coupon = _
    rw [hc]
    simp only [couponDiscount]
    have h1 : (c.code != "") = true := by simpa using hcode
    have h2 : (c.ctype == "percentage") = true := by simpa using hty
    rw [if_pos h1, if_pos h2]
    have : sub * (c.discount / 100) = sub * c.discount / 100 := by ring
    rw [this]
    rfl
  · intro c hc hcode hty
    rw [hpr]
    show couponDiscount sub coupon = _
    rw [hc]
    simp only [couponDiscount]
    have h1 : (c.code != "") = true := by simpa using hcode
    have hty2 : (c.ctype == "percentage") = false := by
      simp [hty]
    have h3 : (c.ctype == "fixed") = true := by simpa using hty
    rw [if_pos h1, if_neg (by simp [hty2]), if_pos h3]
  · rw [hpr]; rfl

/-- Witness for C2: the spec's 500-rupee example evaluated end to end
on `exDb`, combined with the theorem instantiated at that run. -/
theorem c2_pricing_breakdown_witness :
    exOrder.pricing.subtotal = sumItems exOrder.items ∧
    exOrder.pricing.subtotal = 500 ∧ exOrder.pricing.tax = 90 ∧
    exOrder.pricing.shippingCost = 100 ∧ exOrder.pricing.discount = 0 ∧
    exOrder.pricing.total = 690 :=
  ⟨(c2_pricing_breakdown exDb 7 exReq1 exPinfo none 99 "abcde" exDate 50 exOrder exDb2
      exCreate_eq).1,
    by decide, by decide, by decide, by decide, by decide⟩

/-! ### C9 -/

/-- C9: every successful `createOrder` clears the requesting user's
cart: in the resulting store the user document is the pre-state one
with `cart = []`. -/
theorem c9_cart_cleared
    (db : Db) (uid : ℕ) (items : List ReqItem) (pinfo : PaymentInfo)
    (coupon : Option Coupon) (ts : ℕ) (rand : String) (d : DateYMD) (nid : ℕ)
    (o : Order) (db' : Db)
    (h : createOrder db uid items pinfo coupon ts rand d nid =
      (CreateOutcome.created o, db')) :
    ∃ u, findUser db.users uid = some u ∧
      findUser db'.users uid = some { u with cart := ([] : List CartItem) } := by
  obtain ⟨f, s, ois, sub, -, -, -, -, u, hu, hus⟩ := createOrder_created_inv h
  refine ⟨u, hu, ?_⟩
  rw [hus]
  unfold clearCart findUser
  rw [find?_map_key _ _ (fun v => ?_)]
  · rw [show db.users.find? (fun v => v.id == uid) = some u from hu]
    have hid : u.id = uid := findUser_id hu
    simp
  · by_cases hv : (v.id == u.id) = true <;> simp [hv]

/-- Witness for C9: on the fixture run the stored user record ends with
an empty cart. -/
theorem c9_cart_cleared_witness :
    findUser exDb2.users 7 = some { id := 7, cart := ([] : List CartItem) } := by
  obtain ⟨u, hu, hu2⟩ := c9_cart_cleared exDb 7 exReq1 exPinfo none 99 "abcde" exDate 50
    exOrder exDb2 exCreate_eq
  have h0 : findUser exDb.users 7 = some exUser := by decide
  have huu : exUser = u := Option.some.inj (h0.symm.trans hu)
  rw [hu2, ← huu]
  rfl

/-! ### C5 -/

/-- C5: cancelling an order whose status is `shipped`, `delivered`,
`cancelled` or `returned` yields the domain rejection (400, not a
crash) and leaves the whole store — order, cancellation fields and all
product stocks — unchanged. -/
theorem c5_cancel_guard (db : Db) (oid uid : ℕ) (reason : Option String)
    (now : ℕ) (d : DateYMD) (o : Order)
    (hfind : findOrder db.orders oid = some o)
    (hown : o.user = uid)
    (hstat : o.status ∈ (["shipped", "delivered", "cancelled", "returned"] : List String)) :
    cancelOrder db oid uid reason now d = (CancelOutcome.cannotCancel, db) := by
  have hred : cancelOrder db oid uid reason now d = cancelFound db uid reason now d o := by
    unfold cancelOrder
    rw [hfind]
  rw [hred]
  unfold cancelFound
  have h1 : ¬((o.user != uid) = true) := by simp [hown]
  have h2 : ((!(["pending", "confirmed", "processing"].contains o.status)) = true) := by
    simp only [List.mem_cons, List.not_mem_nil, or_false] at hstat
    rcases hstat with h | h | h | h <;> rw [h] <;> decide
  rw [if_neg h1, if_pos h2]

/-- Witness for C5: cancelling the shipped fixture order is rejected
and the store is untouched. -/
theorem c5_cancel_guard_witness :
    cancelOrder exDbShipped 12 7 none 99 exDate = (CancelOutcome.cannotCancel, exDbShipped) :=
  c5_cancel_guard exDbShipped 12 7 none 99 exDate exOrderShipped
    (by decide) (by decide) (by decide)

/-! ### C6 -/

/-- C6: a successful cancellation sets status `cancelled`, records the
supplied reason (default "Cancelled by customer"), sets refundStatus
`pending` with refundAmount = pricing.total when the payment was
completed and refundStatus `processed` with refundAmount 0 otherwise,
and increments every product's stock by the total quantity the order's
line items hold for it. -/
theorem c6_cancel_effects (db : Db) (oid uid : ℕ) (reason : Option String)
    (now : ℕ) (d : DateYMD) (o : Order)
    (hfind : findOrder db.orders oid = some o)
    (hown : o.user = uid)
    (hstat : o.status ∈ (["pending", "confirmed", "processing"] : List String)) :
    ∃ o', (cancelOrder db oid uid reason now d).1 = CancelOutcome.cancelled o' ∧
      o'.status = "cancelled" ∧
      (∃ c, o'.cancellation = some c ∧
        c.reason = reason.getD "Cancelled by customer" ∧
        (o.paymentInfo.status = "completed" →
          c.refundStatus = "pending" ∧ c.refundAmount = o.pricing.total) ∧
        (o.paymentInfo.status ≠ "completed" →
          c.refundStatus = "processed" ∧ c.refundAmount = 0)) ∧
      (∀ pid p, findProduct db.products pid = some p →
        findProduct ((cancelOrder db oid uid reason now d).2.products) pid =
          some { p with stock := p.stock + qtySum o.items pid }) := by
  have hred : cancelOrder db oid uid reason now d = cancelFound db uid reason now d o := by
    unfold cancelOrder
    rw [hfind]
  have h1 : ¬((o.user != uid) = true) := by simp [hown]
  have h2 : ¬((!(["pending", "confirmed", "processing"].contains o.status)) = true) := by
    simp only [List.mem_cons, List.not_mem_nil, or_false] at hstat
    rcases hstat with h | h | h <;> rw [h] <;> decide
  have hcf : cancelFound db uid reason now d o =
      (CancelOutcome.cancelled (saveOrder db.orders d now o.status (cancelledDoc o reason now)),
        { db with orders := updateOrder db.orders (saveOrder db.orders d now o.status (cancelledDoc o reason now)), products := restoreStock db.products (saveOrder db.orders d now o.status (cancelledDoc o reason now)).items }) := by
    unfold cancelFound
    rw [if_neg h1, if_neg h2]
  have hitems : (saveOrder db.orders d now o.status (cancelledDoc o reason now)).items = o.items := by
    unfold saveOrder
    rw [preSave_items]
    rfl
  refine ⟨saveOrder db.orders d now o.status (cancelledDoc o reason now),
    by rw [hred, hcf], ?_,
    ⟨{ reason := reason.getD "Cancelled by customer", cancelledAt := now,
       refundStatus := if o.paymentInfo.status == "completed" then "pending" else "processed",
       refundAmount := if o.paymentInfo.status == "completed" then o.pricing.total else 0 },
      ?_, rfl, ?_, ?_⟩, ?_⟩
  · unfold saveOrder
    rw [preSave_status]
    rfl
  · unfold saveOrder
    rw [preSave_cancellation]
    rfl
  · intro hc
    have : (o.paymentInfo.status == "completed") = true := beq_iff_eq.mpr hc
    rw [if_pos this, if_pos this]
    exact ⟨rfl, rfl⟩
  · intro hc
    have : ¬((o.paymentInfo.status == "completed") = true) := by simp [hc]
    rw [if_neg this, if_neg this]
    exact ⟨rfl, rfl⟩
  · intro pid p hp
    rw [hred, hcf]
    show findProduct (restoreStock db.products (saveOrder db.orders d now o.status (cancelledDoc o reason now)).items) pid = _
    rw [hitems, findProduct_restoreStock, hp, Option.map_some']

/-- Witness for C6: cancelling the paid fixture order succeeds and the
single line item's product stock rises from 5 to 7 (quantity 2). -/
theorem c6_cancel_effects_witness :
    (cancelOrder exDbPaid 11 7 none 99 exDate).1 ≠ CancelOutcome.notFound ∧
    findProduct (cancelOrder exDbPaid 11 7 none 99 exDate).2.products 1 =
      some { exProduct1 with stock := 7 } := by
  obtain ⟨o', h1, h2, h3, h4⟩ := c6_cancel_effects exDbPaid 11 7 none 99 exDate exOrderPaid
    (by decide) (by decide) (by decide)
  refine ⟨by rw [h1]; simp, ?_⟩
  have h5 := h4 1 exProduct1 (by decide)
  rw [h5]
  decide

/-! ### C7 -/

/-- C7: `verifyPayment` rejects with `sigMismatch` and leaves the store
untouched whenever the recomputed digest of `orderId|paymentId` differs
from the supplied signature, and a verified outcome is only possible
when the two are exactly equal. -/
theorem c7_verify_signature (hmac : String → String → String) (keySecret : String)
    (db : Db) (uid : ℕ) (roid rpid rsig : String) (oid : ℕ) (now : ℕ) (d : DateYMD) :
    (hmac keySecret (roid ++ "|" ++ rpid) ≠ rsig →
      verifyPayment hmac keySecret db uid roid rpid rsig oid now d =
        (VerifyOutcome.sigMismatch, db)) ∧
    (∀ o db', verifyPayment hmac keySecret db uid roid rpid rsig oid now d =
        (VerifyOutcome.verified o, db') →
      hmac keySecret (roid ++ "|" ++ rpid) = rsig) := by
  constructor
  · intro hne
    unfold verifyPayment
    rw [if_pos (bne_iff_ne.mpr hne)]
  · intro o db' h
    by_cases heq : hmac keySecret (roid ++ "|" ++ rpid) = rsig
    · exact heq
    · exfalso
      unfold verifyPayment at h
      rw [if_pos (bne_iff_ne.mpr heq)] at h
      exact absurd h (by simp)

/-- Witness for C7: with a digest function returning "deadbeef" and a
supplied signature "zz", verification is rejected and the store is
unchanged. -/
theorem c7_verify_signature_witness :
    verifyPayment exHmac "secret" exDbPaid 7 "rzp_1" "pay_9" "zz" 11 99 exDate =
      (VerifyOutcome.sigMismatch, exDbPaid) :=
  (c7_verify_signature exHmac "secret" exDbPaid 7 "rzp_1" "pay_9" "zz" 11 99 exDate).1
    (by decide)

/-! ### C8 -/

/-- C8: a save appends exactly one timeline entry
`{status, message, timestamp}` when and only when the status changed in
that save, and the previously recorded entries survive unmodified, in
order, as a prefix of the new timeline. -/
theorem c8_timeline_append (os : List Order) (d : DateYMD) (ts : ℕ)
    (loadedStatus : String) (o : Order) :
    ((saveOrder os d ts loadedStatus o).timeline.take o.timeline.length = o.timeline) ∧
    (o.status ≠ loadedStatus →
      (saveOrder os d ts loadedStatus o).timeline =
        o.timeline ++ [{ status := o.status, message := "Order " ++ o.status, timestamp := ts }]) ∧
    (o.status = loadedStatus →
      (saveOrder os d ts loadedStatus o).timeline = o.timeline) := by
  unfold saveOrder
  by_cases h : o.status = loadedStatus
  · have hb : (o.status != loadedStatus) = false := by simp [h]
    rw [preSave_timeline, hb]
    rw [if_neg (by simp)]
    exact ⟨List.take_length _, fun hc => absurd h hc, fun _ => rfl⟩
  · have hb : (o.status != loadedStatus) = true := bne_iff_ne.mpr h
    rw [preSave_timeline, hb]
    rw [if_pos rfl]
    exact ⟨List.take_left _ _, fun _ => rfl, fun hc => absurd hc h⟩

/-- Witness for C8: saving the paid order with loaded status "pending"
(an actual status change) appends exactly the one generated entry. -/
theorem c8_timeline_append_witness :
    (saveOrder [] exDate 99 "pending" exOrderPaid).timeline =
      exOrderPaid.timeline ++ [{ status := exOrderPaid.status, message := "Order " ++ exOrderPaid.status, timestamp := 99 }] :=
  (c8_timeline_append [] exDate 99 "pending" exOrderPaid).2.1 (by decide)

/-! ### C10 -/

theorem webhookDispatch_fst (db : Db) (body : WebhookBody) (now : ℕ) (d : DateYMD) :
    (webhookDispatch db body now d).1 = WebhookOutcome.ok := by
  unfold webhookDispatch
  split
  · split <;> rfl
  · rfl

/-- C10: with no webhook secret configured, `handleWebhook` never
checks the signature — `sigMismatch` is unreachable — and an unsigned
`payment.failed` event still overwrites the matching order's payment
status with `failed`. -/
theorem c10_webhook_no_secret_no_check (hmac : String → String → String)
    (stringify : WebhookBody → String) (db : Db) (sig : String)
    (body : WebhookBody) (now : ℕ) (d : DateYMD) :
    (handleWebhook hmac stringify none db sig body now d).1 ≠ WebhookOutcome.sigMismatch ∧
    (∀ o, body.event = "payment.failed" →
      findOrderByProviderId db.orders body.orderId = some o →
      ∃ o', (handleWebhook hmac stringify none db sig body now d).2.orders =
          updateOrder db.orders o' ∧
        o'.id = o.id ∧ o'.paymentInfo.status = "failed" ∧
        o'.paymentInfo.failureReason = body.errorDescription) := by
  have hw : handleWebhook hmac stringify none db sig body now d =
      webhookDispatch db body now d := rfl
  constructor
  · rw [hw]
    have := webhookDispatch_fst db body now d
    rw [this]
    simp
  · intro o hev hfind
    have hb : (body.event == "payment.failed") = true := beq_iff_eq.mpr hev
    have hd : webhookDispatch db body now d =
        (WebhookOutcome.ok,
          { db with orders := updateOrder db.orders (saveOrder db.orders d now o.status (failedDoc o body.errorDescription)) }) := by
      unfold webhookDispatch
      rw [if_pos hb, hfind]
    refine ⟨saveOrder db.orders d now o.status (failedDoc o body.errorDescription),
      ?_, ?_, ?_, ?_⟩
    · rw [hw, hd]
    · unfold saveOrder
      rw [preSave_id]
      rfl
    · unfold saveOrder
      rw [preSave_paymentInfo]
      rfl
    · unfold saveOrder
      rw [preSave_paymentInfo]
      rfl

/-- Witness for C10: the unsigned `payment.failed` fixture event is
accepted (never `sigMismatch`) and flips the completed payment of the
matching order to failed. -/
theorem c10_webhook_no_secret_no_check_witness :
    (handleWebhook exHmac exStringify none exDbPaid "x" exFailBody 99 exDate).1 ≠
      WebhookOutcome.sigMismatch ∧
    (handleWebhook exHmac exStringify none exDbPaid "x" exFailBody 99 exDate).2.orders.map
      (fun o => o.paymentInfo.status) = ["failed"] :=
  ⟨(c10_webhook_no_secret_no_check exHmac exStringify exDbPaid "x" exFailBody 99 exDate).1,
   by decide⟩

/-! ### C4 -/

/-- C4: the `payment.failed` webhook branch has no guard on the current
payment status: delivered after a completed (verified) payment it still
overwrites `paymentInfo.status` with `failed`, a backward transition
the spec forbids.  Shown both with no webhook secret and with a
configured secret and a matching signature. -/
theorem c4_webhook_downgrades_completed :
    exOrderPaid.paymentInfo.status = "completed" ∧
    (handleWebhook exHmac exStringify none exDbPaid "sig" exFailBody 99 exDate).2.orders.map
      (fun o => o.paymentInfo.status) = ["failed"] ∧
    (handleWebhook exHmac exStringify (some "whsec") exDbPaid
        (exHmac "whsec" (exStringify exFailBody)) exFailBody 99 exDate).2.orders.map
      (fun o => o.paymentInfo.status) = ["failed"] :=
  ⟨by decide, by decide, by decide⟩

/-! ### C3 -/

theorem generateOrderNumber_data (ts : ℕ) (rand : String) :
    ∃ rest, (generateOrderNumber ts rand).data = 'O' :: 'R' :: 'D' :: '-' :: rest := by
  refine ⟨((toBase36 ts).data ++ '-' :: rand.data).map Char.toUpper, ?_⟩
  show (("ORD-" ++ toBase36 ts ++ "-" ++ rand)).data.map Char.toUpper = _
  rw [String.data_append, String.data_append, String.data_append]
  have h1 : "ORD-".data = ['O', 'R', 'D', '-'] := rfl
  have h2 : "-".data = ['-'] := rfl
  rw [h1, h2]
  have hO : Char.toUpper 'O' = 'O' := by decide
  have hR : Char.toUpper 'R' = 'R' := by decide
  have hD : Char.toUpper 'D' = 'D' := by decide
  have hM : Char.toUpper '-' = '-' := by decide
  simp [hO, hR, hD, hM]

theorem generateOrderNumber_ne_empty (ts : ℕ) (rand : String) :
    generateOrderNumber ts rand ≠ "" := by
  obtain ⟨rest, h⟩ := generateOrderNumber_data ts rand
  intro hc
  rw [hc] at h
  exact absurd h (by simp)

theorem preSave_orderNumber (os : List Order) (d : DateYMD) (ts : ℕ)
    (sm : Bool) (o : Order) :
    (preSave os d ts sm o).orderNumber = (assignNumber os d o).orderNumber := by
  unfold preSave
  split <;> rfl

/-- C3 counterexample: the first order of the day created through
`createOrder` on an empty store gets the fallback number
"ORD-2R-ABCDE", whose last four characters are not digits — it is not
PREFIX + YYMMDD + 4-digit-sequence, and not the claimed 0001. -/
theorem c3_counterexample :
    (createOrder exDb 7 exReq1 exPinfo none 99 "abcde" exDate 50).1 =
      CreateOutcome.created exOrder ∧
    exOrder.orderNumber = "ORD-2R-ABCDE" ∧
    ((exOrder.orderNumber.data.drop (exOrder.orderNumber.data.length - 4)).all
      Char.isDigit) = false := by
  refine ⟨?_, by decide, by decide⟩
  rw [exCreate_eq]

/-- C3 amended: the pre-save hook leaves an already-set order number
unchanged and only assigns the SS + YY + MM + DD + 4-digit-sequence
number when the order has none, with sequence 0001 on a day with no
stored order; orders created through the `createOrder` route are always
given the fallback generator's "ORD-"-prefixed number instead, so the
day-sequence scheme never applies to them. -/
theorem c3_order_number_scheme :
    (∀ (os : List Order) (d : DateYMD) (ts : ℕ) (sm : Bool) (o : Order),
      o.orderNumber ≠ "" → (preSave os d ts sm o).orderNumber = o.orderNumber) ∧
    (∀ (os : List Order) (d : DateYMD) (ts : ℕ) (sm : Bool) (o : Order),
      o.orderNumber = "" → (preSave os d ts sm o).orderNumber = ssOrderNumber os d) ∧
    (∀ (os : List Order) (d : DateYMD),
      todayNumbers os d = [] → ssOrderNumber os d = datePrefix d ++ "0001") ∧
    (∀ (ts : ℕ) (rand : String),
      ∃ rest, (generateOrderNumber ts rand).data = 'O' :: 'R' :: 'D' :: '-' :: rest) ∧
    (∀ (db : Db) (uid : ℕ) (items : List ReqItem) (pinfo : PaymentInfo)
        (coupon : Option Coupon) (ts : ℕ) (rand : String) (d : DateYMD) (nid : ℕ)
        (o : Order) (db' : Db),
      createOrder db uid items pinfo coupon ts rand d nid = (CreateOutcome.created o, db') →
      o.orderNumber = generateOrderNumber ts rand) := by
  refine ⟨?_, ?_, ?_, generateOrderNumber_data, ?_⟩
  · intro os d ts sm o h
    rw [preSave_orderNumber, assignNumber_of_ne os d o h]
  · intro os d ts sm o h
    rw [preSave_orderNumber]
    unfold assignNumber
    rw [if_pos (beq_iff_eq.mpr h)]
  · intro os d h
    simp only [ssOrderNumber, h, lexMax]
    rw [show padZero 4 (Nat.repr 1) = "0001" from by decide]
  · intro db uid items pinfo coupon ts rand d nid o db' h
    obtain ⟨f, s, ois, sub, -, ho, -⟩ := createOrder_created_inv h
    rw [ho, preSave_orderNumber,
      assignNumber_of_ne _ _ _ (by exact generateOrderNumber_ne_empty ts rand)]
    rfl

/-- Witness for C3's amended claim: the hook assigns "SS2510120001" to
an order saved with no number on a day with no orders, and leaves the
shipped fixture order's existing number alone. -/
theorem c3_order_number_scheme_witness :
    (preSave [] exDate 99 true exOrderBlank).orderNumber = "SS2510120001" ∧
    (preSave [] exDate 99 true exOrderShipped).orderNumber = exOrderShipped.orderNumber := by
  constructor
  · rw [c3_order_number_scheme.2.1 [] exDate 99 true exOrderBlank (by decide),
      c3_order_number_scheme.2.2.1 [] exDate (by decide)]
    decide
  · exact c3_order_number_scheme.1 [] exDate 99 true exOrderShipped (by decide)

end Ecom
